import Mathlib

/-!
Shallow embedding of the BossTrader repository for specification checking.

The repository contains two application variants plus shared components:
  * src/app.py            — single-operator FastAPI app: in-memory proposal
                            store (PROPOSALS), kill switch, Telegram callback
                            handler `handle_callback_query`, webhook `tv_webhook`.
  * src/bosstrader_v2/app.py — multi-user variant with a SQL user table,
                            admin endpoints and a webhook that authenticates
                            by api_key and gates on payment.
  * src/security.py       — `is_paid_active` entitlement check.
  * src/risk.py           — `risk_gate` stub (always allows).
  * src/adapters/…        — `BrokerAdapter` / `ManualAdapter.place_trade` stub.
  * src/models.py         — SQLAlchemy `User` and `Proposal` (with `user_id`).

External I/O (Telegram HTTP calls, broker execution) is modelled as an
explicit list of emitted `Effect`s; wall-clock time, freshly generated ids
and configuration values are passed as parameters. Python dicts keyed by
string become association lists where a later insert shadows an earlier
binding under lookup, matching dict lookup semantics. JSON numeric payloads
(entry/stop/targets) are modelled as integers; no claim depends on their
arithmetic.
-/

namespace BossTrader

/-- A proposal record as stored in the PROPOSALS dict of src/app.py. -/
structure Proposal where
  id : String
  created_at : Nat
  status : String
  symbol : String
  side : String
  timeframe : String
  reason : String
  entry : Option Int
  stop : Option Int
  targets : List Int
deriving Repr, DecidableEq

/-- The KILL_SWITCH global of src/app.py. -/
structure KillSwitch where
  armed : Bool
  armed_at : Option Nat
deriving Repr, DecidableEq

/-- Mutable globals of src/app.py: the PROPOSALS dict and the kill switch. -/
structure AppState where
  proposals : List (String × Proposal)
  killSwitch : KillSwitch
deriving Repr, DecidableEq

/-- The fields of a Telegram callback-query update that
`handle_callback_query` reads: cq["id"], cq.get("data", ""), and the chat id,
message id and text of the message the buttons were attached to. -/
structure CallbackQuery where
  id : String
  data : String
  chat_id : String
  message_id : Nat
  text : String
deriving Repr, DecidableEq

/-- Configuration read from the environment by src/app.py. -/
structure Config where
  tvWebhookSecret : String
deriving Repr, DecidableEq

/-- External side effects the controller can emit: Telegram calls
(answerCallbackQuery, editMessageText, sendMessage) and a broker-adapter
invocation. The placeTrade constructor exists so that theorems can state
whether the Broker Adapter is ever invoked; src/app.py never calls it. -/
inductive Effect where
  | answerCallback (cqId text : String)
  | editMessage (chatId : String) (messageId : Nat) (text : String)
  | send (text : String)
  | placeTrade (proposalId : String)
deriving Repr, DecidableEq

/-- True exactly on answerCallback effects. -/
def Effect.isAnswerCallback : Effect → Bool
  | .answerCallback _ _ => true
  | _ => false

/-- True exactly on placeTrade effects. -/
def Effect.isPlaceTrade : Effect → Bool
  | .placeTrade _ => true
  | _ => false

/-- Python str.startswith, modelled over the character list of the string
(so that proofs can evaluate it; the builtin String.startsWith is
byte-position based and does not reduce in the kernel). -/
def strStartsWith (s p : String) : Bool :=
  p.data.isPrefixOf s.data

/-- Characters after the first colon of a character list; empty when there
is no colon. -/
def dropThroughFirstColon : List Char → List Char
  | [] => []
  | c :: cs => if c = ':' then cs else dropThroughFirstColon cs

/-- Python data.split(":", 1)[1]: everything after the first colon. The
call sites only reach it on strings that do contain a colon. -/
def afterFirstColon (s : String) : String :=
  ⟨dropThroughFirstColon s.data⟩

/-- PROPOSALS[pid]["status"] = s: update the status of the entry at key pid,
leaving every other entry unchanged. -/
def dictSetStatus (m : List (String × Proposal)) (pid s : String) :
    List (String × Proposal) :=
  m.map (fun kv => if kv.1 = pid then (kv.1, { kv.2 with status := s }) else kv)

/-- Embedding of handle_callback_query (src/app.py, lines 89-129). Each
branch answers the callback; approve/reject overwrite the stored status
whenever the id is present, with no check of the current status and no call
to the risk gate or broker adapter; kill:on / kill:off toggle the kill
switch. Returns the new global state and the emitted effects in call order. -/
def handle_callback_query (st : AppState) (now : Nat) (cq : CallbackQuery) :
    AppState × List Effect :=
  let cq_id := cq.id
  let data := cq.data
  let chat_id := cq.chat_id
  let message_id := cq.message_id
  let original_text := cq.text
  if strStartsWith data "approve:" then
    let pid := afterFirstColon data
    match st.proposals.lookup pid with
    | some _ =>
        ({ st with proposals := dictSetStatus st.proposals pid "APPROVED" },
         [Effect.answerCallback cq_id "Approved ✅",
          Effect.editMessage chat_id message_id
            (original_text ++ "\n\n<b>Status:</b> ✅ APPROVED")])
    | none => (st, [Effect.answerCallback cq_id "Unknown proposal"])
  else if strStartsWith data "reject:" then
    let pid := afterFirstColon data
    match st.proposals.lookup pid with
    | some _ =>
        ({ st with proposals := dictSetStatus st.proposals pid "REJECTED" },
         [Effect.answerCallback cq_id "Rejected ❌",
          Effect.editMessage chat_id message_id
            (original_text ++ "\n\n<b>Status:</b> ❌ REJECTED")])
    | none => (st, [Effect.answerCallback cq_id "Unknown proposal"])
  else if data = "kill:on" then
    ({ st with killSwitch := { armed := true, armed_at := some now } },
     [Effect.answerCallback cq_id "Kill switch ARMED 🛑",
      Effect.send "🛑 <b>KILL SWITCH ARMED</b>\nNo new trade proposals will be sent."])
  else if data = "kill:off" then
    ({ st with killSwitch := { armed := false, armed_at := none } },
     [Effect.answerCallback cq_id "Kill switch OFF 🟢",
      Effect.send "🟢 <b>KILL SWITCH OFF</b>\nTrade proposals can resume."])
  else
    (st, [Effect.answerCallback cq_id "Unhandled"])

/-- JSON body of the /tv-webhook request of src/app.py; absent keys are
`none` and the .get defaults are applied inside tv_webhook. -/
structure AlertBody where
  secret : Option String
  symbol : Option String
  side : Option String
  timeframe : Option String
  reason : Option String
  entry : Option Int
  stop : Option Int
  targets : List Int
deriving Repr, DecidableEq

/-- Outcome of the /tv-webhook endpoint of src/app.py: the kill-switch JSON
response (with its HTTP status code), an HTTPException or a propagated
notification-delivery exception, or the success body. -/
inductive WebhookResult where
  | jsonError (ok : Bool) (error : String) (statusCode : Nat)
  | httpError (statusCode : Nat) (detail : String)
  | success (ok : Bool) (id : String)
deriving Repr, DecidableEq

/-- Embedding of tv_webhook (src/app.py, lines 178-234). pid stands for the
freshly generated uuid hex prefix; notifyOk tells whether the Telegram send
succeeds (tg_send raises on failure, which FastAPI surfaces as a 500, after
the PROPOSALS entry was already written). Returns the new state, the
response, and the emitted effects. -/
def tv_webhook (cfg : Config) (st : AppState) (now : Nat) (pid : String)
    (body : AlertBody) (notifyOk : Bool) :
    AppState × WebhookResult × List Effect :=
  if st.killSwitch.armed then
    (st, WebhookResult.jsonError false "kill_switch_armed" 423, [])
  else if body.secret ≠ some cfg.tvWebhookSecret then
    (st, WebhookResult.httpError 401 "bad secret", [])
  else
    let symbol := (body.symbol.getD "UNKNOWN").toUpper
    let side := (body.side.getD "CALL").toUpper
    let timeframe := body.timeframe.getD "1m"
    let reason := body.reason.getD ""
    let p : Proposal :=
      { id := pid, created_at := now, status := "PENDING", symbol := symbol,
        side := side, timeframe := timeframe, reason := reason,
        entry := body.entry, stop := body.stop, targets := body.targets }
    let st1 : AppState := { st with proposals := (pid, p) :: st.proposals }
    let text :=
      "<b>Trade Proposal</b>\n<b>" ++ symbol ++ "</b> — <b>" ++ side ++
      "</b> (" ++ timeframe ++ ")\nID: <code>" ++ pid ++ "</code>\nReason: " ++ reason
    if notifyOk then
      (st1, WebhookResult.success true pid, [Effect.send text])
    else
      (st1, WebhookResult.httpError 500 "notification delivery failed",
       [Effect.send text])

/-- A user record: the SQLAlchemy User of src/models.py and of
src/bosstrader_v2/app.py (same columns). paid_until is an optional
timestamp; timestamps are modelled as integers (seconds). -/
structure User where
  id : Nat
  email : String
  api_key : String
  is_active : Bool
  plan : String
  paid_until : Option Int
  tg_chat_id : Option String
  created_at : Int
deriving Repr, DecidableEq

/-- Embedding of is_paid (src/bosstrader_v2/app.py, lines 99-102): paid_until
is set and not strictly in the past. It does not look at is_active. -/
def is_paid (now : Int) (user : User) : Bool :=
  match user.paid_until with
  | none => false
  | some t => decide (t ≥ now)

/-- Embedding of is_paid_active (src/security.py, lines 10-19): the active
flag must be set, paid_until must be set and not strictly in the past. -/
def is_paid_active (now : Int) (user : User) : Bool :=
  if !user.is_active then false
  else
    match user.paid_until with
    | none => false
    | some t => decide (t ≥ now)

/-- Embedding of risk_gate (src/risk.py): a stub that always allows. -/
def risk_gate (_user : User) (_proposal : Proposal) : Bool × String :=
  (true, "OK")

/-- Embedding of ManualAdapter.place_trade (src/adapters/manual.py): a stub
that always reports success with an instructional message. -/
def ManualAdapter.place_trade (_user : User) (_proposal : Proposal) :
    Bool × String :=
  (true, "Manual mode: execute this trade in TopstepX now.")

/-- Embedding of require_admin (src/bosstrader_v2/app.py, lines 90-96).
adminKey is the stripped ADMIN_KEY environment value; header is the
X-Admin-Key request header (none when absent, which headers.get maps
to the empty-string default). Returns some (code, detail) when an
HTTPException is raised, none when the guard passes. -/
def require_admin (adminKey : String) (header : Option String) :
    Option (Nat × String) :=
  if adminKey = "" then none
  else
    let got := header.getD ""
    if got ≠ adminKey then some (401, "Missing/invalid admin key") else none

/-- Database update used by admin_set_paid_until: apply f to the first user
whose email matches (query(...).first() followed by commit), leaving every
other row unchanged. -/
def updateFirstByEmail (users : List User) (email : String) (f : User → User) :
    List User :=
  match users with
  | [] => []
  | u :: rest =>
      if u.email = email then f u :: rest
      else u :: updateFirstByEmail rest email f

/-- Embedding of admin_set_paid_until (src/bosstrader_v2/app.py, lines
191-204): after the admin guard, look the user up by email (404 when
absent), set paid_until to now plus days (in seconds: days * 86400), and
return the updated table together with the response payload (user id and
new paid_until). No other column is written; is_active is not touched. -/
def admin_set_paid_until (adminKey : String) (header : Option String)
    (users : List User) (now : Int) (email : String) (days : Int) :
    Except (Nat × String) (List User × Nat × Int) :=
  match require_admin adminKey header with
  | some e => Except.error e
  | none =>
    match users.find? (fun u => u.email == email) with
    | none => Except.error (404, "User not found")
    | some u =>
      let newPaid := now + days * 86400
      Except.ok
        (updateFirstByEmail users email
          (fun v => { v with paid_until := some newPaid }),
         u.id, newPaid)

/-- JSON body of the /tv-webhook request of src/bosstrader_v2/app.py
(pydantic WebhookBody); the free-form payload dict is omitted, no claim
reads it. -/
structure WebhookBody where
  api_key : Option String
  secret : Option String
  symbol : Option String
  side : Option String
  timeframe : Option String
  message : Option String
deriving Repr, DecidableEq

/-- Outcome of the v2 /tv-webhook endpoint: an HTTPException with status
code and detail, or the accepted 200 body (identified by the user email it
echoes). specSoftBlocked is the response shape the specification describes
for inactive membership — a soft body with ok false and a blocked tag; it
is part of the response type only so that theorems can compare the code
against it, and the code never produces it. -/
inductive V2Response where
  | httpError (statusCode : Nat) (detail : String)
  | accepted (userEmail : String)
  | specSoftBlocked (blocked : String)
deriving Repr, DecidableEq

/-- Embedding of tv_webhook (src/bosstrader_v2/app.py, lines 232-269):
optional global secret check (only when TV_WEBHOOK_SECRET is configured),
api_key resolution with the header winning over the body (Python `or`, so
an empty header string falls back to the body), user lookup by api_key,
a 401 for an unknown or inactive user, a 402 when not paid, and acceptance
otherwise. This variant stores no proposal at all. -/
def v2_tv_webhook (tvSecret : String) (users : List User) (now : Int)
    (headerApiKey : Option String) (body : WebhookBody) : V2Response :=
  if tvSecret ≠ "" ∧ body.secret ≠ some tvSecret then
    V2Response.httpError 401 "Invalid webhook secret"
  else
    let api_key : Option String :=
      match headerApiKey with
      | some k => if k = "" then body.api_key else some k
      | none => body.api_key
    match api_key with
    | none =>
        V2Response.httpError 400
          "Missing api_key (use header X-Api-Key or JSON field api_key)"
    | some k =>
      if k = "" then
        V2Response.httpError 400
          "Missing api_key (use header X-Api-Key or JSON field api_key)"
      else
        match users.find? (fun u => u.api_key == k) with
        | none => V2Response.httpError 401 "Invalid or inactive api_key"
        | some user =>
          if !user.is_active then
            V2Response.httpError 401 "Invalid or inactive api_key"
          else if !is_paid now user then
            V2Response.httpError 402 "Payment required"
          else
            V2Response.accepted user.email

/-- A proposal row of the multi-user variant (src/models.py Proposal):
unlike the in-memory dict of src/app.py it carries the owning user_id. -/
structure DbProposal where
  id : String
  user_id : Nat
  symbol : String
  side : String
  timeframe : Option String
  reason : Option String
  status : String
  created_at : Int
deriving Repr, DecidableEq

/-- Modelled from the spec: the decision-callback controller of the
multi-user variant. The repository declares its data model (src/models.py
Proposal with user_id, status PENDING/APPROVED/REJECTED/BLOCKED), its
helpers (src/security.py is_paid_active, src/telegram.py, src/risk.py,
src/adapters) — but the controller that wires them together is not under
src/; only src/app.py, a single-operator handler with no users or owners,
is. Following spec sections 3, 4.6 and 7: resolve the actor by the chat id
of the sender; an unlinked sender is acknowledged "not linked" and a
non-entitled one "membership inactive"; a proposal id that does not exist
OR whose owner is a different user is acknowledged "not found" — the same
response in both cases, with no state change, so that existence is not
leaked; a settled (non-PENDING) proposal is acknowledged "already decided"
with no state change; otherwise the decision is applied. The risk-gate and
broker-adapter wiring of the approve branch is elided: the stubs always
allow and succeed, and no claim settled against this model depends on it. -/
def spec_handle_decision (users : List User) (store : List DbProposal)
    (now : Int) (senderChatId : String) (action : String) :
    List DbProposal × String :=
  match users.find? (fun u => u.tg_chat_id == some senderChatId) with
  | none => (store, "not linked")
  | some actor =>
    if !is_paid_active now actor then (store, "membership inactive")
    else
      let applyDecision (pid newStatus ackApplied : String) :
          List DbProposal × String :=
        match store.find? (fun p => p.id == pid) with
        | none => (store, "not found")
        | some p =>
          if p.user_id ≠ actor.id then (store, "not found")
          else if p.status ≠ "PENDING" then (store, "already decided")
          else
            (store.map
              (fun q => if q.id == pid then { q with status := newStatus } else q),
             ackApplied)
      if strStartsWith action "approve:" then
        applyDecision (afterFirstColon action) "APPROVED" "approved"
      else if strStartsWith action "reject:" then
        applyDecision (afterFirstColon action) "REJECTED" "rejected"
      else (store, "unhandled")

/-! Branch-reduction lemmas for handle_callback_query and tv_webhook, and
lookup lemmas for the association-list store. -/

/-- Updating the status of key pid changes exactly that lookup result. -/
theorem lookup_dictSetStatus (m : List (String × Proposal)) (pid s : String) :
    (dictSetStatus m pid s).lookup pid =
      (m.lookup pid).map (fun p => { p with status := s }) := by
  induction m with
  | nil => rfl
  | cons kv rest ih =>
      obtain ⟨k, v⟩ := kv
      by_cases h : k = pid
      · subst h
        have hd : dictSetStatus ((k, v) :: rest) k s =
            (k, { v with status := s }) :: dictSetStatus rest k s := by
          simp [dictSetStatus]
        rw [hd]
        simp [List.lookup]
      · have hd : dictSetStatus ((k, v) :: rest) pid s =
            (k, v) :: dictSetStatus rest pid s := by
          simp [dictSetStatus, h]
        have hbeq : (pid == k) = false :=
          beq_eq_false_iff_ne.mpr (fun hc => h hc.symm)
        rw [hd]
        simp only [List.lookup, hbeq]
        exact ih

/-- Reduction of handle_callback_query on an approve action whose proposal
id is present in the store. -/
theorem handle_approve_found (st : AppState) (now : Nat) (cq : CallbackQuery)
    (pid : String) (p : Proposal)
    (h : strStartsWith cq.data "approve:" = true)
    (hpid : afterFirstColon cq.data = pid)
    (hp : st.proposals.lookup pid = some p) :
    handle_callback_query st now cq =
      ({ st with proposals := dictSetStatus st.proposals pid "APPROVED" },
       [Effect.answerCallback cq.id "Approved ✅",
        Effect.editMessage cq.chat_id cq.message_id
          (cq.text ++ "\n\n<b>Status:</b> ✅ APPROVED")]) := by
  unfold handle_callback_query
  simp only [h, hpid, hp, if_true]

/-- Reduction of handle_callback_query on a reject action whose proposal id
is present in the store. -/
theorem handle_reject_found (st : AppState) (now : Nat) (cq : CallbackQuery)
    (pid : String) (p : Proposal)
    (hna : strStartsWith cq.data "approve:" = false)
    (h : strStartsWith cq.data "reject:" = true)
    (hpid : afterFirstColon cq.data = pid)
    (hp : st.proposals.lookup pid = some p) :
    handle_callback_query st now cq =
      ({ st with proposals := dictSetStatus st.proposals pid "REJECTED" },
       [Effect.answerCallback cq.id "Rejected ❌",
        Effect.editMessage cq.chat_id cq.message_id
          (cq.text ++ "\n\n<b>Status:</b> ❌ REJECTED")]) := by
  unfold handle_callback_query
  simp only [hna, h, hpid, hp, if_true, Bool.false_eq_true, if_false]

/-- Reduction of handle_callback_query on an approve action whose proposal
id is absent from the store. -/
theorem handle_approve_unknown (st : AppState) (now : Nat) (cq : CallbackQuery)
    (pid : String)
    (h : strStartsWith cq.data "approve:" = true)
    (hpid : afterFirstColon cq.data = pid)
    (hp : st.proposals.lookup pid = none) :
    handle_callback_query st now cq =
      (st, [Effect.answerCallback cq.id "Unknown proposal"]) := by
  unfold handle_callback_query
  simp only [h, hpid, hp, if_true]

/-- Reduction of handle_callback_query on the kill:on action. -/
theorem handle_kill_on (st : AppState) (now : Nat) (cq : CallbackQuery)
    (h : cq.data = "kill:on") :
    handle_callback_query st now cq =
      ({ st with killSwitch := { armed := true, armed_at := some now } },
       [Effect.answerCallback cq.id "Kill switch ARMED 🛑",
        Effect.send "🛑 <b>KILL SWITCH ARMED</b>\nNo new trade proposals will be sent."]) := by
  unfold handle_callback_query
  rw [h]
  rfl

/-- Reduction of handle_callback_query on the kill:off action. -/
theorem handle_kill_off (st : AppState) (now : Nat) (cq : CallbackQuery)
    (h : cq.data = "kill:off") :
    handle_callback_query st now cq =
      ({ st with killSwitch := { armed := false, armed_at := none } },
       [Effect.answerCallback cq.id "Kill switch OFF 🟢",
        Effect.send "🟢 <b>KILL SWITCH OFF</b>\nTrade proposals can resume."]) := by
  unfold handle_callback_query
  rw [h]
  rfl

/-- An armed kill switch short-circuits tv_webhook: state unchanged, 423
JSON error, no effects. -/
theorem tv_webhook_armed (cfg : Config) (st : AppState) (now : Nat)
    (pid : String) (body : AlertBody) (notifyOk : Bool)
    (h : st.killSwitch.armed = true) :
    tv_webhook cfg st now pid body notifyOk =
      (st, WebhookResult.jsonError false "kill_switch_armed" 423, []) := by
  unfold tv_webhook
  rw [h]
  simp

/-- With the kill switch disarmed and a matching secret, tv_webhook stores
a PENDING proposal under pid whatever the notification outcome; the
response is the success body on delivery and a 500 on delivery failure. -/
theorem tv_webhook_creates_pending (cfg : Config) (st : AppState) (now : Nat)
    (pid : String) (body : AlertBody) (notifyOk : Bool)
    (hks : st.killSwitch.armed = false)
    (hsec : body.secret = some cfg.tvWebhookSecret) :
    ((tv_webhook cfg st now pid body notifyOk).1.proposals.lookup pid).map
        Proposal.status = some "PENDING" ∧
    (tv_webhook cfg st now pid body true).2.1 = WebhookResult.success true pid ∧
    (notifyOk = false →
      (tv_webhook cfg st now pid body notifyOk).2.1 =
        WebhookResult.httpError 500 "notification delivery failed") := by
  unfold tv_webhook
  rw [hks, hsec]
  cases notifyOk <;> simp [List.lookup]

/-! Concrete fixtures used by counterexamples and witnesses. -/

/-- A proposal record with the given id and status. -/
def someProposal (pid status : String) : Proposal :=
  { id := pid, created_at := 0, status := status, symbol := "SPY", side := "CALL",
    timeframe := "1m", reason := "momentum", entry := some 480, stop := some 479,
    targets := [481, 482] }

/-- Kill switch in its initial, disarmed position. -/
def disarmedKillSwitch : KillSwitch := { armed := false, armed_at := none }

/-- App state holding one already-approved proposal p1. -/
def stApproved : AppState :=
  { proposals := [("p1", someProposal "p1" "APPROVED")],
    killSwitch := disarmedKillSwitch }

/-- App state holding one pending proposal p1. -/
def stPending : AppState :=
  { proposals := [("p1", someProposal "p1" "PENDING")],
    killSwitch := disarmedKillSwitch }

/-- A reject callback for proposal p1. -/
def cqRejectP1 : CallbackQuery :=
  { id := "cb1", data := "reject:p1", chat_id := "chat", message_id := 7,
    text := "Trade Proposal" }

/-- An approve callback for proposal p1. -/
def cqApproveP1 : CallbackQuery :=
  { id := "cb2", data := "approve:p1", chat_id := "chat", message_id := 7,
    text := "Trade Proposal" }

/-- An approve callback for an id that is not in the store. -/
def cqApproveMissing : CallbackQuery :=
  { id := "cb3", data := "approve:zz", chat_id := "chat", message_id := 7,
    text := "Trade Proposal" }

/-- C1: counterexample. In src/app.py a proposal already settled as APPROVED
is not terminal: a reject callback on it overwrites the stored status to
REJECTED — the stored proposal changes — and the callback is acknowledged
"Rejected ❌", not "already decided" and not "not found". -/
theorem C1_cex_settled_status_reapplied :
    (handle_callback_query stApproved 0 cqRejectP1).1.proposals.lookup "p1" =
        some (someProposal "p1" "REJECTED") ∧
    (handle_callback_query stApproved 0 cqRejectP1).1.proposals.lookup "p1" ≠
        stApproved.proposals.lookup "p1" ∧
    (handle_callback_query stApproved 0 cqRejectP1).2.head? =
        some (Effect.answerCallback "cb1" "Rejected ❌") := by
  decide

/-- C1 (amended): once settled, a proposal is NOT terminal in
handle_callback_query. A decision callback whose proposal id is present is
re-applied regardless of the current status — approve overwrites the status
to APPROVED (acknowledged "Approved ✅") and reject overwrites it to
REJECTED (acknowledged "Rejected ❌") — while only an id absent from the
store leaves the state unchanged and is acknowledged "Unknown proposal";
no "already decided" response exists. -/
theorem C1_amended_decisions_overwrite (st : AppState) (now : Nat)
    (cqA cqR cqU : CallbackQuery) (pid pidU : String) (p : Proposal)
    (hA : strStartsWith cqA.data "approve:" = true)
    (hApid : afterFirstColon cqA.data = pid)
    (hRa : strStartsWith cqR.data "approve:" = false)
    (hR : strStartsWith cqR.data "reject:" = true)
    (hRpid : afterFirstColon cqR.data = pid)
    (hp : st.proposals.lookup pid = some p)
    (hUa : strStartsWith cqU.data "approve:" = true)
    (hUpid : afterFirstColon cqU.data = pidU)
    (hU : st.proposals.lookup pidU = none) :
    ((handle_callback_query st now cqA).1.proposals.lookup pid =
        some { p with status := "APPROVED" } ∧
      (handle_callback_query st now cqA).2.head? =
        some (Effect.answerCallback cqA.id "Approved ✅")) ∧
    ((handle_callback_query st now cqR).1.proposals.lookup pid =
        some { p with status := "REJECTED" } ∧
      (handle_callback_query st now cqR).2.head? =
        some (Effect.answerCallback cqR.id "Rejected ❌")) ∧
    handle_callback_query st now cqU =
      (st, [Effect.answerCallback cqU.id "Unknown proposal"]) := by
  refine ⟨⟨?_, ?_⟩, ⟨?_, ?_⟩, ?_⟩
  · rw [handle_approve_found st now cqA pid p hA hApid hp]
    simp [lookup_dictSetStatus, hp]
  · rw [handle_approve_found st now cqA pid p hA hApid hp]
    rfl
  · rw [handle_reject_found st now cqR pid p hRa hR hRpid hp]
    simp [lookup_dictSetStatus, hp]
  · rw [handle_reject_found st now cqR pid p hRa hR hRpid hp]
    rfl
  · exact handle_approve_unknown st now cqU pidU hUa hUpid hU

/-- Witness for C1 (amended) at a concrete settled proposal. -/
theorem C1_amended_witness :
    (handle_callback_query stApproved 0 cqRejectP1).1.proposals.lookup "p1" =
      some { someProposal "p1" "APPROVED" with status := "REJECTED" } :=
  (C1_amended_decisions_overwrite stApproved 0 cqApproveP1 cqRejectP1
      cqApproveMissing "p1" "zz" (someProposal "p1" "APPROVED")
      (by decide) (by decide) (by decide) (by decide) (by decide)
      (by decide) (by decide) (by decide) (by decide)).2.1.1

/-- C2: is_paid_active (the entitlement check of src/security.py) is true
iff the active flag is set AND paid_until is set AND paid_until is not
before now — inclusive boundary, so paid_until equal to now is still
entitled; and the combined gate of the v2 webhook (is_active together with
is_paid) is the same predicate. -/
theorem C2_entitlement_iff (now : Int) (u : User) :
    (is_paid_active now u = true ↔
      u.is_active = true ∧ ∃ t, u.paid_until = some t ∧ now ≤ t) ∧
    ((u.is_active && is_paid now u) = true ↔
      u.is_active = true ∧ ∃ t, u.paid_until = some t ∧ now ≤ t) := by
  cases hp : u.paid_until <;> cases ha : u.is_active <;>
    simp [is_paid_active, is_paid, hp, ha, ge_iff_le]

/-- C8: handle_callback_query acknowledges the interaction exactly once on
every input — known proposal, unknown proposal, kill-switch toggles, and
unrecognized actions alike. -/
theorem C8_always_acknowledges_once (st : AppState) (now : Nat)
    (cq : CallbackQuery) :
    ((handle_callback_query st now cq).2.countP Effect.isAnswerCallback) = 1 := by
  unfold handle_callback_query
  by_cases hA : strStartsWith cq.data "approve:" = true
  · rcases hp : List.lookup (afterFirstColon cq.data) st.proposals with _ | p <;>
      simp [hA, hp, List.countP_cons, List.countP_nil, Effect.isAnswerCallback]
  · by_cases hR : strStartsWith cq.data "reject:" = true
    · rcases hp : List.lookup (afterFirstColon cq.data) st.proposals with _ | p <;>
        simp [hA, hR, hp, List.countP_cons, List.countP_nil,
          Effect.isAnswerCallback]
    · rw [if_neg hA, if_neg hR]
      by_cases hOn : cq.data = "kill:on"
      · rw [if_pos hOn]
        simp [List.countP_cons, List.countP_nil, Effect.isAnswerCallback]
      · rw [if_neg hOn]
        by_cases hOff : cq.data = "kill:off"
        · rw [if_pos hOff]
          simp [List.countP_cons, List.countP_nil, Effect.isAnswerCallback]
        · rw [if_neg hOff]
          simp [List.countP_cons, List.countP_nil, Effect.isAnswerCallback]

/-- A user fixture for exercising the risk-gate and adapter stubs. -/
def bossUser : User :=
  { id := 1, email := "boss@example.com", api_key := "k1", is_active := true,
    plan := "basic", paid_until := some 1000, tg_chat_id := some "chat",
    created_at := 0 }

/-- handle_callback_query never emits a broker-adapter invocation on any
input: no branch of the source calls place_trade. -/
theorem handle_no_place_trade (st : AppState) (now : Nat) (cq : CallbackQuery) :
    (handle_callback_query st now cq).2.countP Effect.isPlaceTrade = 0 := by
  unfold handle_callback_query
  by_cases hA : strStartsWith cq.data "approve:" = true
  · rcases hp : List.lookup (afterFirstColon cq.data) st.proposals with _ | p <;>
      simp [hA, hp, List.countP_cons, List.countP_nil, Effect.isPlaceTrade]
  · by_cases hR : strStartsWith cq.data "reject:" = true
    · rcases hp : List.lookup (afterFirstColon cq.data) st.proposals with _ | p <;>
        simp [hA, hR, hp, List.countP_cons, List.countP_nil, Effect.isPlaceTrade]
    · rw [if_neg hA, if_neg hR]
      by_cases hOn : cq.data = "kill:on"
      · rw [if_pos hOn]
        simp [List.countP_cons, List.countP_nil, Effect.isPlaceTrade]
      · rw [if_neg hOn]
        by_cases hOff : cq.data = "kill:off"
        · rw [if_pos hOff]
          simp [List.countP_cons, List.countP_nil, Effect.isPlaceTrade]
        · rw [if_neg hOff]
          simp [List.countP_cons, List.countP_nil, Effect.isPlaceTrade]

/-- C3: counterexample. On a PENDING proposal with the repository risk
gate — which allows, returning (true, "OK") — an approve callback does set
the status to APPROVED, but the Broker Adapter is never invoked (no
placeTrade effect is emitted), refuting the claim that a risk-gate pass
leads to a Broker Adapter invocation; the handler never consults either. -/
theorem C3_cex_gate_allows_but_adapter_never_invoked :
    risk_gate bossUser (someProposal "p1" "PENDING") = (true, "OK") ∧
    ((handle_callback_query stPending 0 cqApproveP1).1.proposals.lookup "p1").map
        Proposal.status = some "APPROVED" ∧
    (handle_callback_query stPending 0 cqApproveP1).2.countP
        Effect.isPlaceTrade = 0 := by
  decide

/-- C3 (amended): handle_callback_query neither consults the Risk Gate nor
invokes the Broker Adapter. The stub risk gate always returns (true, "OK"),
no callback ever emits a placeTrade effect, and an approve callback on a
stored proposal sets its status to APPROVED unconditionally — the BLOCKED
outcome is unreachable through this handler. -/
theorem C3_amended_no_gate_no_adapter (st : AppState) (now : Nat)
    (cq : CallbackQuery) (u : User) (p : Proposal) (pid : String) :
    (handle_callback_query st now cq).2.countP Effect.isPlaceTrade = 0 ∧
    risk_gate u p = (true, "OK") ∧
    (strStartsWith cq.data "approve:" = true → afterFirstColon cq.data = pid →
      st.proposals.lookup pid = some p →
      ((handle_callback_query st now cq).1.proposals.lookup pid).map
          Proposal.status = some "APPROVED") := by
  refine ⟨handle_no_place_trade st now cq, rfl, ?_⟩
  intro hA hpid hp
  rw [handle_approve_found st now cq pid p hA hpid hp]
  simp [lookup_dictSetStatus, hp]

/-- Witness for C3 (amended) at a concrete pending proposal. -/
theorem C3_amended_witness :
    ((handle_callback_query stPending 0 cqApproveP1).1.proposals.lookup "p1").map
        Proposal.status = some "APPROVED" :=
  (C3_amended_no_gate_no_adapter stPending 0 cqApproveP1 bossUser
      (someProposal "p1" "PENDING") "p1").2.2 (by decide) (by decide) (by decide)

/-- C7: once tv_webhook passes the kill-switch and secret checks it writes
the proposal into the store with status PENDING before attempting the
notification, so the proposal exists and is retrievable as PENDING whether
or not notification delivery succeeds; delivery failure only changes the
transport response (a 500), never rolls the proposal back. -/
theorem C7_proposal_survives_notify_failure (cfg : Config) (st : AppState)
    (now : Nat) (pid : String) (body : AlertBody) (notifyOk : Bool)
    (hks : st.killSwitch.armed = false)
    (hsec : body.secret = some cfg.tvWebhookSecret) :
    ((tv_webhook cfg st now pid body notifyOk).1.proposals.lookup pid).map
        Proposal.status = some "PENDING" ∧
    (notifyOk = false →
      (tv_webhook cfg st now pid body notifyOk).2.1 =
        WebhookResult.httpError 500 "notification delivery failed") := by
  have h := tv_webhook_creates_pending cfg st now pid body notifyOk hks hsec
  exact ⟨h.1, h.2.2⟩

/-- An alert body carrying the matching webhook secret. -/
def secretAlertBody : AlertBody :=
  { secret := some "s3cr3t", symbol := some "SPY", side := some "CALL",
    timeframe := some "1m", reason := some "momentum", entry := some 480,
    stop := some 479, targets := [481, 482] }

/-- App state with an empty store and a disarmed kill switch. -/
def stEmpty : AppState := { proposals := [], killSwitch := disarmedKillSwitch }

/-- Witness for C7: with notification delivery failing, the proposal is
still stored as PENDING. -/
theorem C7_witness :
    ((tv_webhook ⟨"s3cr3t"⟩ stEmpty 0 "pX" secretAlertBody false).1.proposals.lookup
        "pX").map Proposal.status = some "PENDING" ∧
    (false = false →
      (tv_webhook ⟨"s3cr3t"⟩ stEmpty 0 "pX" secretAlertBody false).2.1 =
        WebhookResult.httpError 500 "notification delivery failed") :=
  C7_proposal_survives_notify_failure ⟨"s3cr3t"⟩ stEmpty 0 "pX" secretAlertBody
    false (by decide) (by decide)

/-- C9: the kill switch gates alert ingestion. A kill:on callback arms it;
while armed, every tv_webhook call returns the 423 kill_switch_armed JSON
error, leaves the state unchanged (creates no proposal) and emits no
notification; a kill:off callback disarms it, after which a webhook with a
valid secret again creates a PENDING proposal and reports success. -/
theorem C9_kill_switch_gates_webhook (cfg : Config) (st : AppState) (now : Nat)
    (cqOn cqOff : CallbackQuery) (pid : String) (body : AlertBody)
    (notifyOk : Bool)
    (hOn : cqOn.data = "kill:on") (hOff : cqOff.data = "kill:off")
    (hsec : body.secret = some cfg.tvWebhookSecret) :
    (handle_callback_query st now cqOn).1.killSwitch.armed = true ∧
    (∀ st1 : AppState, st1.killSwitch.armed = true →
      tv_webhook cfg st1 now pid body notifyOk =
        (st1, WebhookResult.jsonError false "kill_switch_armed" 423, [])) ∧
    (handle_callback_query (handle_callback_query st now cqOn).1 now
        cqOff).1.killSwitch.armed = false ∧
    (∀ st2 : AppState, st2.killSwitch.armed = false →
      (tv_webhook cfg st2 now pid body true).2.1 =
          WebhookResult.success true pid ∧
      ((tv_webhook cfg st2 now pid body notifyOk).1.proposals.lookup pid).map
          Proposal.status = some "PENDING") := by
  refine ⟨?_, ?_, ?_, ?_⟩
  · rw [handle_kill_on st now cqOn hOn]
  · intro st1 h1
    exact tv_webhook_armed cfg st1 now pid body notifyOk h1
  · rw [handle_kill_off _ now cqOff hOff]
  · intro st2 h2
    have h := tv_webhook_creates_pending cfg st2 now pid body notifyOk h2 hsec
    exact ⟨h.2.1, h.1⟩

/-- The kill:on callback fixture. -/
def cqKillOn : CallbackQuery :=
  { id := "cb4", data := "kill:on", chat_id := "chat", message_id := 7,
    text := "Trade Proposal" }

/-- The kill:off callback fixture. -/
def cqKillOff : CallbackQuery :=
  { id := "cb5", data := "kill:off", chat_id := "chat", message_id := 7,
    text := "Trade Proposal" }

/-- Witness for C9 at concrete callbacks and a concrete alert. -/
theorem C9_witness :
    (handle_callback_query stEmpty 0 cqKillOn).1.killSwitch.armed = true ∧
    (∀ st1 : AppState, st1.killSwitch.armed = true →
      tv_webhook ⟨"s3cr3t"⟩ st1 0 "pX" secretAlertBody true =
        (st1, WebhookResult.jsonError false "kill_switch_armed" 423, [])) ∧
    (handle_callback_query (handle_callback_query stEmpty 0 cqKillOn).1 0
        cqKillOff).1.killSwitch.armed = false ∧
    (∀ st2 : AppState, st2.killSwitch.armed = false →
      (tv_webhook ⟨"s3cr3t"⟩ st2 0 "pX" secretAlertBody true).2.1 =
          WebhookResult.success true "pX" ∧
      ((tv_webhook ⟨"s3cr3t"⟩ st2 0 "pX" secretAlertBody true).1.proposals.lookup
          "pX").map Proposal.status = some "PENDING") :=
  C9_kill_switch_gates_webhook ⟨"s3cr3t"⟩ stEmpty 0 cqKillOn cqKillOff "pX"
    secretAlertBody true (by decide) (by decide) (by decide)

/-- User A, who owns proposal p1 in the multi-user model. -/
def userA : User :=
  { id := 1, email := "a@example.com", api_key := "ka", is_active := true,
    plan := "basic", paid_until := some 1000, tg_chat_id := some "chatA",
    created_at := 0 }

/-- User B, linked to a different chat and owning nothing. -/
def userB : User :=
  { id := 2, email := "b@example.com", api_key := "kb", is_active := true,
    plan := "basic", paid_until := some 1000, tg_chat_id := some "chatB",
    created_at := 0 }

/-- A pending proposal row owned by user A. -/
def propOfA : DbProposal :=
  { id := "p1", user_id := 1, symbol := "MNQ", side := "LONG",
    timeframe := some "1m", reason := some "momentum", status := "PENDING",
    created_at := 0 }

/-- C4: ownership isolation of the decision-callback controller. For EVERY
decision callback — approve or reject, from a sender resolved to user B,
entitled or not — on a proposal owned by a different user, the store is
left unchanged and the response B receives is identical to the response B
would receive for a proposal id that is absent from the store altogether
("not found" when B is entitled, "membership inactive" before the store is
even consulted when B is not), so existence is never leaked. -/
theorem C4_ownership_isolation (users : List User)
    (store storeNo : List DbProposal) (now : Int) (chat act pid : String)
    (b : User) (p : DbProposal)
    (hb : users.find? (fun u => u.tg_chat_id == some chat) = some b)
    (hact : strStartsWith act "approve:" = true ∨
      strStartsWith act "reject:" = true)
    (harg : afterFirstColon act = pid)
    (hp : store.find? (fun q => q.id == pid) = some p)
    (hown : p.user_id ≠ b.id)
    (habsent : storeNo.find? (fun q => q.id == pid) = none) :
    (spec_handle_decision users store now chat act).1 = store ∧
    (spec_handle_decision users storeNo now chat act).1 = storeNo ∧
    (spec_handle_decision users store now chat act).2 =
      (spec_handle_decision users storeNo now chat act).2 := by
  unfold spec_handle_decision
  rw [hb]
  by_cases hent : is_paid_active now b = true
  · by_cases hA : strStartsWith act "approve:" = true
    · simp [hent, hA, harg, hp, habsent, hown]
    · have hR : strStartsWith act "reject:" = true := hact.resolve_left hA
      simp [hent, hA, hR, harg, hp, habsent, hown]
  · have hent' : is_paid_active now b = false := by
      simpa using hent
    simp [hent']

/-- Witness for C4: user B rejecting the proposal of user A gets the same
answer, on an unchanged store, as when the id does not exist at all. -/
theorem C4_witness :
    (spec_handle_decision [userA, userB] [propOfA] 0 "chatB" "reject:p1").1 =
        [propOfA] ∧
    (spec_handle_decision [userA, userB] [] 0 "chatB" "reject:p1").1 = [] ∧
    (spec_handle_decision [userA, userB] [propOfA] 0 "chatB" "reject:p1").2 =
      (spec_handle_decision [userA, userB] [] 0 "chatB" "reject:p1").2 :=
  C4_ownership_isolation [userA, userB] [propOfA] [] 0 "chatB" "reject:p1"
    "p1" userB propOfA (by decide) (by decide) (by decide) (by decide)
    (by decide) (by decide)

/-- A user with the active flag cleared but a future paid_until. -/
def inactiveUser : User :=
  { id := 3, email := "c@example.com", api_key := "kc", is_active := false,
    plan := "basic", paid_until := some 1000, tg_chat_id := none,
    created_at := 0 }

/-- The empty v2 webhook body. -/
def emptyBody : WebhookBody :=
  { api_key := none, secret := none, symbol := none, side := none,
    timeframe := none, message := none }

/-- C5: counterexample. In the v2 webhook an alert whose credential resolves
to a user with the active flag cleared is rejected with the transport-level
HTTPException 401 "Invalid or inactive api_key", not with the soft body
with ok false and blocked "membership_inactive" the claim describes. -/
theorem C5_cex_inactive_gets_http_401 :
    v2_tv_webhook "" [inactiveUser] 0 (some "kc") emptyBody =
        V2Response.httpError 401 "Invalid or inactive api_key" ∧
    v2_tv_webhook "" [inactiveUser] 0 (some "kc") emptyBody ≠
        V2Response.specSoftBlocked "membership_inactive" := by
  decide

/-- C5 (amended): an alert from a user with inactive membership is rejected
with a transport-level error, not a soft body: HTTPException 401 "Invalid
or inactive api_key" when the active flag is cleared, and HTTPException 402
"Payment required" when the user is active but the entitlement is expired
or unset; no proposal is created (this variant never stores proposals). -/
theorem C5_amended_inactive_is_hard_error (tvSecret : String)
    (users : List User) (now : Int) (k : String) (body : WebhookBody)
    (u : User)
    (hsec : tvSecret = "" ∨ body.secret = some tvSecret)
    (hk : k ≠ "")
    (hfind : users.find? (fun v => v.api_key == k) = some u) :
    (u.is_active = false →
      v2_tv_webhook tvSecret users now (some k) body =
        V2Response.httpError 401 "Invalid or inactive api_key") ∧
    (u.is_active = true → is_paid now u = false →
      v2_tv_webhook tvSecret users now (some k) body =
        V2Response.httpError 402 "Payment required") := by
  have hc : ¬(tvSecret ≠ "" ∧ body.secret ≠ some tvSecret) := by
    rintro ⟨h1, h2⟩
    cases hsec with
    | inl h => exact h1 h
    | inr h => exact h2 h
  constructor
  · intro hinact
    simp [v2_tv_webhook, hc, hk, hfind, hinact]
  · intro hact hpaid
    simp [v2_tv_webhook, hc, hk, hfind, hact, hpaid]

/-- Witness for C5 (amended) at the concrete inactive user. -/
theorem C5_amended_witness :
    v2_tv_webhook "" [inactiveUser] 0 (some "kc") emptyBody =
      V2Response.httpError 401 "Invalid or inactive api_key" :=
  (C5_amended_inactive_is_hard_error "" [inactiveUser] 0 "kc" emptyBody
      inactiveUser (Or.inl rfl) (by decide) (by decide)).1 (by decide)

/-- Updating the first user with a given email commutes with looking that
email up, provided the update preserves the email column. -/
theorem find?_updateFirstByEmail (users : List User) (email : String)
    (f : User → User) (hf : ∀ v, (f v).email = v.email) :
    (updateFirstByEmail users email f).find? (fun v => v.email == email) =
      (users.find? (fun v => v.email == email)).map f := by
  induction users with
  | nil => rfl
  | cons u rest ih =>
      by_cases h : u.email = email
      · have h1 : ((f u).email == email) = true := by
          rw [hf u]
          exact beq_iff_eq.mpr h
        have h2 : (u.email == email) = true := beq_iff_eq.mpr h
        simp [updateFirstByEmail, h, List.find?, h1, h2]
      · have h2 : (u.email == email) = false := beq_eq_false_iff_ne.mpr h
        simp [updateFirstByEmail, h, List.find?, h2, ih]

/-- C6: counterexample. Extending the entitlement of a deactivated user sets
paid_until but does NOT reactivate: after admin_set_paid_until the stored
user still has is_active = false, refuting the claimed reactivation. -/
theorem C6_cex_no_reactivation :
    admin_set_paid_until "" none [inactiveUser] 0 "c@example.com" 30 =
        Except.ok ([{ inactiveUser with paid_until := some 2592000 }], 3,
          2592000) ∧
    ({ inactiveUser with paid_until := some 2592000 } : User).is_active =
        false := by
  exact ⟨rfl, rfl⟩

/-- C6 (amended): for an existing user, admin_set_paid_until sets paid_until
to now plus N days and leaves every other column unchanged — including
is_active, which it does not touch, so the user is NOT reactivated. -/
theorem C6_amended_extends_without_reactivating (adminKey : String)
    (header : Option String) (users : List User) (now : Int) (email : String)
    (days : Int) (u : User)
    (hauth : require_admin adminKey header = none)
    (hfind : users.find? (fun v => v.email == email) = some u) :
    admin_set_paid_until adminKey header users now email days =
      Except.ok
        (updateFirstByEmail users email
          (fun v => { v with paid_until := some (now + days * 86400) }),
         u.id, now + days * 86400) ∧
    (updateFirstByEmail users email
        (fun v => { v with paid_until := some (now + days * 86400) })).find?
        (fun v => v.email == email) =
      some { u with paid_until := some (now + days * 86400) } := by
  constructor
  · unfold admin_set_paid_until
    rw [hauth, hfind]
  · rw [find?_updateFirstByEmail users email
        (fun v => { v with paid_until := some (now + days * 86400) })
        (fun v => rfl),
      hfind]
    rfl

/-- Witness for C6 (amended) at the concrete deactivated user. -/
theorem C6_amended_witness :
    admin_set_paid_until "" none [inactiveUser] 0 "c@example.com" 30 =
      Except.ok
        (updateFirstByEmail [inactiveUser] "c@example.com"
          (fun v => { v with paid_until := some ((0 : Int) + 30 * 86400) }),
         inactiveUser.id, (0 : Int) + 30 * 86400) :=
  (C6_amended_extends_without_reactivating "" none [inactiveUser] 0
      "c@example.com" 30 inactiveUser (by decide) (by decide)).1

/-- C10: require_admin raises its 401 HTTPException exactly when the
configured ADMIN_KEY is non-empty and the X-Admin-Key header (empty when
absent) differs from it; the only error it can raise is that 401; and with
an empty ADMIN_KEY the guard passes every caller, leaving the admin
endpoints unauthenticated. -/
theorem C10_admin_guard_iff (adminKey : String) (header : Option String) :
    (require_admin adminKey header ≠ none ↔
      adminKey ≠ "" ∧ header.getD "" ≠ adminKey) ∧
    (require_admin adminKey header = none ∨
      require_admin adminKey header =
        some (401, "Missing/invalid admin key")) ∧
    require_admin "" header = none := by
  refine ⟨?_, ?_, rfl⟩ <;>
  · unfold require_admin
    by_cases h : adminKey = "" <;> by_cases h2 : header.getD "" = adminKey <;>
      simp [h, h2]

end BossTrader
